import Mathlib

/-!
Shallow embedding of the `blogd` blogging backend (views.py, serializers.py)
and proofs about its permission rules, query filters and derived counts.

The persistence store is modelled as lists of records; Django querysets
become list filters and sorts; DRF responses become `Except Err`.
-/

namespace Blogd

/-- A Django auth `User` row: id, unique username, email, names, and the
platform staff flag checked by the DRF permission IsAdminUser. -/
structure User where
  id : Nat
  username : String
  email : String
  first_name : String
  last_name : String
  is_staff : Bool
deriving DecidableEq

/-- `UserProfile`: one-to-one with `User`, holding the blog-admin flag. -/
structure UserProfile where
  userId : Nat
  is_blog_admin : Bool
deriving DecidableEq

/-- A blog category row. -/
structure BlogCategory where
  id : Nat
  name : String
deriving DecidableEq

/-- A blog post row. Timestamps are naturals (epoch seconds). The
`published_date` of a listed published post is always set (spec glossary:
a published post has a set `published_date`), so it is modelled as `Nat`. -/
structure BlogPost where
  id : Nat
  title : String
  content : String
  authorId : Nat
  categoryId : Option Nat
  created_at : Nat
  published : Bool
  published_date : Nat
deriving DecidableEq

/-- A comment row; `approved` defaults to false at the model level. -/
structure Comment where
  id : Nat
  postId : Nat
  authorId : Nat
  content : String
  created_at : Nat
  approved : Bool
deriving DecidableEq

/-- A like row: at most one per (post, user) pair is the intended invariant. -/
structure Like where
  id : Nat
  postId : Nat
  userId : Nat
deriving DecidableEq

/-- The persistence store: one list per table. -/
structure Store where
  users : List User
  profiles : List UserProfile
  categories : List BlogCategory
  posts : List BlogPost
  comments : List Comment
  likes : List Like
deriving DecidableEq

/-- Error taxonomy of the spec; DRF maps `validationError` to HTTP 400,
`permissionError` to 403, `notFoundError` to 404, `conflictError` to 409. -/
inductive Err where
  | validationError
  | authenticationError
  | permissionError
  | notFoundError
  | conflictError
deriving DecidableEq

/-- `UserProfile.objects.get(user=...)` followed by reading `is_blog_admin`;
`false` when no profile row exists (every claim concerns actors that have
one, stated as a hypothesis where it matters). -/
def isBlogAdmin (s : Store) (uid : Nat) : Bool :=
  match s.profiles.find? (fun p => p.userId == uid) with
  | some p => p.is_blog_admin
  | none => false

/-- Descending order by a natural-number key: the relation underlying
the Django descending order_by on a field. -/
def keyDesc {α : Type} (k : α → Nat) (a b : α) : Prop :=
  k b ≤ k a

instance {α : Type} (k : α → Nat) : DecidableRel (keyDesc k) :=
  fun a b => inferInstanceAs (Decidable (k b ≤ k a))

instance {α : Type} (k : α → Nat) : IsTotal α (keyDesc k) :=
  ⟨fun a b => Or.symm (Nat.le_total (k a) (k b))⟩

instance {α : Type} (k : α → Nat) : IsTrans α (keyDesc k) :=
  ⟨fun _ _ _ hab hbc => Nat.le_trans hbc hab⟩

/-- Descending order_by as insertion sort on the descending key order. -/
def sortByDesc {α : Type} (k : α → Nat) (l : List α) : List α :=
  l.insertionSort (keyDesc k)

/-- Does `hay` begin with `needle` (character lists)? -/
def beginsWith : List Char → List Char → Bool
  | _, [] => true
  | [], _ :: _ => false
  | h :: t, n :: m => h == n && beginsWith t m

/-- Does `needle` occur contiguously inside `hay` (character lists)? -/
def lcontains : List Char → List Char → Bool
  | [], needle => needle.isEmpty
  | h :: t, needle => beginsWith (h :: t) needle || lcontains t needle

/-- The Django icontains lookup: case-insensitive substring match. -/
def icontains (hay needle : String) : Bool :=
  lcontains (hay.toList.map Char.toLower) (needle.toList.map Char.toLower)

/-- The username of the author of a post, via the `author__username` join. -/
def authorUsername (s : Store) (p : BlogPost) : String :=
  match s.users.find? (fun u => u.id == p.authorId) with
  | some u => u.username
  | none => ""

/-- The search disjunction of `BlogPostListView.get_queryset`:
`Q(title__icontains) | Q(content__icontains) | Q(author__username__icontains)`. -/
def matchesSearch (s : Store) (q : String) (p : BlogPost) : Bool :=
  icontains p.title q || icontains p.content q || icontains (authorUsername s p) q

/-- Optional query parameters of `BlogPostListView`. -/
structure PostFilters where
  category : Option Nat
  search : Option String

/-- `BlogPostListView.get_queryset`: published posts ordered by
`-published_date`, then optionally filtered by category and by the search
disjunction. -/
def listPublished (s : Store) (f : PostFilters) : List BlogPost :=
  let q0 := sortByDesc (fun p => p.published_date) (s.posts.filter (fun p => p.published))
  let q1 := match f.category with
    | some c => q0.filter (fun p => p.categoryId == some c)
    | none => q0
  match f.search with
  | some t => q1.filter (fun p => matchesSearch s t p)
  | none => q1

/-- Seconds in 30 days, `timedelta(days=30)`. -/
def thirtyDays : Nat := 30 * 24 * 60 * 60

/-- `LatestBlogPostsView.get_queryset`: published posts from the last 30
days, ordered by `-published_date`, capped at 5. -/
def latest (s : Store) (now : Nat) : List BlogPost :=
  (sortByDesc (fun p => p.published_date)
    (s.posts.filter (fun p => p.published && now - thirtyDays ≤ p.published_date))).take 5

/-- `AdminBlogPostsView.get_queryset`: requires `is_blog_admin`, then all of
the posts authored by the actor (any publish state) ordered by `-created_at`. -/
def listOwnForAdmin (s : Store) (actor : User) : Except Err (List BlogPost) :=
  if isBlogAdmin s actor.id then
    .ok (sortByDesc (fun p => p.created_at) (s.posts.filter (fun p => p.authorId == actor.id)))
  else .error .permissionError

/-- Request body for creating a post. -/
structure PostInput where
  title : String
  content : String
  categoryId : Option Nat
  published : Bool
  published_date : Nat

/-- `BlogPostListView.perform_create`: only blog admins may create; the
author is forced to the requesting actor. -/
def createPost (s : Store) (actor : User) (pid : Nat) (inp : PostInput) (now : Nat) :
    Except Err Store :=
  if isBlogAdmin s actor.id then
    .ok { s with posts :=
      { id := pid, title := inp.title, content := inp.content, authorId := actor.id,
        categoryId := inp.categoryId, created_at := now,
        published := inp.published, published_date := inp.published_date } :: s.posts }
  else .error .permissionError

/-- `BlogCategoryListView` POST: permission list `[IsAuthenticated,
IsAdminUser]`, i.e. the platform `is_staff` flag gates creation. -/
def createCategory (s : Store) (actor : User) (cid : Nat) (nm : String) :
    Except Err Store :=
  if actor.is_staff then
    .ok { s with categories := { id := cid, name := nm } :: s.categories }
  else .error .permissionError

/-- `BlogCategoryDetailView` PUT/PATCH: `IsAdminUser` (is_staff) gates the
mutation; the permission check precedes object lookup. -/
def updateCategory (s : Store) (actor : User) (cid : Nat) (nm : String) :
    Except Err Store :=
  if actor.is_staff then
    match s.categories.find? (fun c => c.id == cid) with
    | some _ =>
      .ok { s with
        categories := s.categories.map
          (fun c => if c.id == cid then { c with name := nm } else c) }
    | none => .error .notFoundError
  else .error .permissionError

/-- `BlogCategoryDetailView` DELETE: `IsAdminUser` (is_staff) gates it. -/
def deleteCategory (s : Store) (actor : User) (cid : Nat) : Except Err Store :=
  if actor.is_staff then
    match s.categories.find? (fun c => c.id == cid) with
    | some _ => .ok { s with categories := s.categories.filter (fun c => !(c.id == cid)) }
    | none => .error .notFoundError
  else .error .permissionError

/-- Updatable fields of a post. -/
structure PostUpdate where
  title : String
  content : String
  published : Bool
  published_date : Nat

/-- `BlogPostDetailView` PUT/PATCH: object lookup (404 first), then deny
unless the actor is the author or a blog admin. -/
def updatePost (s : Store) (actor : User) (pid : Nat) (upd : PostUpdate) :
    Except Err Store :=
  match s.posts.find? (fun p => p.id == pid) with
  | none => .error .notFoundError
  | some post =>
    if post.authorId == actor.id || isBlogAdmin s actor.id then
      .ok { s with
        posts := s.posts.map (fun p =>
          if p.id == pid then
            { p with
              title := upd.title,
              content := upd.content,
              published := upd.published,
              published_date := upd.published_date }
          else p) }
    else .error .permissionError

/-- `BlogPostDetailView` DELETE: same gate as update. Modelled from the
spec: the dependent-comment/like cascade of the absent models module
(`Post → Comments, Likes` cascade delete, spec section 3). -/
def deletePost (s : Store) (actor : User) (pid : Nat) : Except Err Store :=
  match s.posts.find? (fun p => p.id == pid) with
  | none => .error .notFoundError
  | some post =>
    if post.authorId == actor.id || isBlogAdmin s actor.id then
      .ok { s with
        posts := s.posts.filter (fun p => !(p.id == pid)),
        comments := s.comments.filter (fun c => !(c.postId == pid)),
        likes := s.likes.filter (fun l => !(l.postId == pid)) }
    else .error .permissionError

/-- `CommentListView.get_queryset`: comments of the post with
`approved=True`, ordered by `-created_at`; existence of the post is never
checked on the list path. -/
def listApprovedForPost (s : Store) (postId : Nat) : List Comment :=
  sortByDesc (fun c => c.created_at)
    (s.comments.filter (fun c => c.postId == postId && c.approved))

/-- The GET handler of `CommentListView` for an authenticated actor: it has
no failure path, it always answers with the filtered list. -/
def commentListGET (s : Store) (_actor : User) (postId : Nat) :
    Except Err (List Comment) :=
  .ok (listApprovedForPost s postId)

/-- Request body for creating a comment. The serializer marks `post`,
`author` and `created_at` read-only, so body values for them are ignored;
`approved` is a writable field. Its default when omitted is false
(modelled from the spec: the absent models module declares
`approved` default false, spec section 3). -/
structure CommentInput where
  content : String
  approved : Option Bool
  bodyAuthorId : Option Nat
  bodyPostId : Option Nat

/-- `CommentListView.perform_create`: resolve the post from the URL (404 if
absent) and save with `author=request.user, post=post`. -/
def createComment (s : Store) (actor : User) (urlPostId : Nat) (inp : CommentInput)
    (newId now : Nat) : Except Err Store :=
  match s.posts.find? (fun p => p.id == urlPostId) with
  | none => .error .notFoundError
  | some post =>
    .ok { s with comments :=
      { id := newId, postId := post.id, authorId := actor.id, content := inp.content,
        created_at := now, approved := inp.approved.getD false } :: s.comments }

/-- Updatable field of a comment. -/
structure CommentUpdate where
  content : String
  approved : Option Bool

/-- `CommentDetailView` PUT/PATCH: object lookup, then deny unless the
actor is the author of the comment or a blog admin. -/
def updateComment (s : Store) (actor : User) (cid : Nat) (upd : CommentUpdate) :
    Except Err Store :=
  match s.comments.find? (fun c => c.id == cid) with
  | none => .error .notFoundError
  | some c =>
    if c.authorId == actor.id || isBlogAdmin s actor.id then
      .ok { s with comments := s.comments.map (fun x =>
        if x.id == cid then
          { x with content := upd.content, approved := (upd.approved).getD x.approved }
        else x) }
    else .error .permissionError

/-- `CommentDetailView` DELETE: same gate as update. -/
def deleteComment (s : Store) (actor : User) (cid : Nat) : Except Err Store :=
  match s.comments.find? (fun c => c.id == cid) with
  | none => .error .notFoundError
  | some c =>
    if c.authorId == actor.id || isBlogAdmin s actor.id then
      .ok { s with comments := s.comments.filter (fun x => !(x.id == cid)) }
    else .error .permissionError

/-- `ApproveCommentView.patch`: blog-admin check first, then object lookup,
then unconditionally set `approved = True` and save. -/
def approveComment (s : Store) (actor : User) (cid : Nat) : Except Err Store :=
  if isBlogAdmin s actor.id then
    match s.comments.find? (fun c => c.id == cid) with
    | none => .error .notFoundError
    | some _ =>
      .ok { s with comments := s.comments.map (fun c =>
        if c.id = cid then { c with approved := true } else c) }
  else .error .permissionError

/-- `LikeCreateView.perform_create`: resolve the post (404 if absent); if a
Like for (post, actor) already exists raise DRF `ValidationError`
("You already liked this post", HTTP 400); otherwise save with
`user=request.user, post=post`. -/
def likeCreate (s : Store) (actor : User) (postId newId : Nat) : Except Err Store :=
  match s.posts.find? (fun p => p.id == postId) with
  | none => .error .notFoundError
  | some post =>
    if s.likes.any (fun l => l.postId == post.id && l.userId == actor.id) then
      .error .validationError
    else
      .ok { s with likes := { id := newId, postId := post.id, userId := actor.id } :: s.likes }

/-- `LikeDeleteView`: resolve the post (404 if absent), then
`get_object_or_404(Like, post=post, user=request.user)` and delete that
row. -/
def likeDelete (s : Store) (actor : User) (postId : Nat) : Except Err Store :=
  match s.posts.find? (fun p => p.id == postId) with
  | none => .error .notFoundError
  | some post =>
    match s.likes.find? (fun l => l.postId == post.id && l.userId == actor.id) with
    | none => .error .notFoundError
    | some l => .ok { s with likes := s.likes.filter (fun x => !(x.id == l.id)) }

/-- Registration request body; optional fields model absent keys. -/
structure RegisterInput where
  username : String
  password : String
  email : Option String
  first_name : Option String
  last_name : Option String
  is_blog_admin : Option Bool

/-- `UserRegisterView.post` with `UserRegisterSerializer`: any serializer
invalidity (missing required email/first_name/last_name, or the username
uniqueness validator) answers HTTP 400; on success `create` makes the User
(non-staff) and its `UserProfile` with the requested or default admin
flag. -/
def register (s : Store) (inp : RegisterInput) (newId : Nat) :
    Except Err (Store × User) :=
  if s.users.any (fun u => u.username == inp.username) then .error .validationError
  else
    match inp.email, inp.first_name, inp.last_name with
    | some e, some f, some l =>
      let u : User :=
        { id := newId, username := inp.username, email := e,
          first_name := f, last_name := l, is_staff := false }
      let pr : UserProfile :=
        { userId := newId, is_blog_admin := (inp.is_blog_admin).getD false }
      .ok ({ s with
        users := u :: s.users,
        profiles := pr :: s.profiles }, u)
    | _, _, _ => .error .validationError

/-- `BlogPostSerializer.get_comments_count`: approved comments of the post. -/
def comments_count (s : Store) (p : BlogPost) : Nat :=
  (s.comments.filter (fun c => c.postId == p.id && c.approved)).length

/-- `BlogPostSerializer.get_likes_count`: all likes of the post. -/
def likes_count (s : Store) (p : BlogPost) : Nat :=
  (s.likes.filter (fun l => l.postId == p.id)).length

/-- `BlogPostSerializer.get_is_liked`: for an authenticated requester,
whether a Like by them on the post exists; false for anonymous callers. -/
def is_liked (s : Store) (actor : Option User) (p : BlogPost) : Bool :=
  match actor with
  | some u => s.likes.any (fun l => l.postId == p.id && l.userId == u.id)
  | none => false

/-! ### Generic query lemmas -/

theorem mem_sortByDesc {α : Type} (k : α → Nat) (l : List α) (a : α) :
    a ∈ sortByDesc k l ↔ a ∈ l :=
  (List.perm_insertionSort (keyDesc k) l).mem_iff

theorem sorted_sortByDesc {α : Type} (k : α → Nat) (l : List α) :
    List.Sorted (keyDesc k) (sortByDesc k l) :=
  List.sorted_insertionSort (keyDesc k) l

theorem perm_sortByDesc {α : Type} (k : α → Nat) (l : List α) :
    (sortByDesc k l).Perm l :=
  List.perm_insertionSort (keyDesc k) l

theorem find?_append_cons {α : Type} (p : α → Bool) (l1 l2 : List α) (c : α)
    (h1 : ∀ x ∈ l1, p x = false) (hc : p c = true) :
    List.find? p (l1 ++ c :: l2) = some c := by
  induction l1 with
  | nil => simp [hc]
  | cons a t ih =>
    have ha : p a = false := h1 a (by simp)
    simpa [ha] using ih (fun x hx => h1 x (by simp [hx]))

theorem map_eq_self_of {α : Type} (f : α → α) (l : List α)
    (h : ∀ x ∈ l, f x = x) : l.map f = l := by
  induction l with
  | nil => rfl
  | cons a t ih =>
    simp only [List.map_cons, h a (by simp),
      ih (fun x hx => h x (by simp [hx]))]

/-! ### Claims -/

/-- Claim C6: `listPublished` returns only posts with `published = true`
ordered by `published_date` descending; with a search term, a published
post is included iff the term `icontains`-matches its title OR its content
OR the username of its author; with a category filter only posts of that
category are included; no unpublished post is ever returned. -/
theorem C6_listPublished_spec (s : Store) (f : PostFilters) :
    (∀ p : BlogPost, p ∈ listPublished s f ↔
      (p ∈ s.posts ∧ p.published = true ∧
        (∀ c, f.category = some c → p.categoryId = some c) ∧
        (∀ t, f.search = some t →
          (icontains p.title t || icontains p.content t ||
            icontains (authorUsername s p) t) = true)))
    ∧ List.Sorted (keyDesc (fun p => p.published_date)) (listPublished s f) := by
  unfold listPublished
  cases hc : f.category <;> cases ht : f.search <;>
    simp only [hc, ht] <;>
    refine ⟨fun p => ?_, ?_⟩ <;>
    simp [List.mem_filter, mem_sortByDesc, matchesSearch, and_assoc,
      List.Sorted.filter, sorted_sortByDesc] <;>
    tauto

/-- Claim C7: `latest` returns at most 5 posts, each published with
`published_date` within the last 30 days, ordered by `published_date`
descending. -/
theorem C7_latest_spec (s : Store) (now : Nat) :
    (latest s now).length ≤ 5 ∧
    (∀ p ∈ latest s now,
      p.published = true ∧ now - thirtyDays ≤ p.published_date) ∧
    List.Sorted (keyDesc (fun p => p.published_date)) (latest s now) := by
  unfold latest
  refine ⟨?_, fun p hp => ?_, ?_⟩
  · simpa using Nat.min_le_left 5 _
  · have hmem := List.take_subset 5 _ hp
    rw [mem_sortByDesc, List.mem_filter] at hmem
    simpa using hmem.2
  · exact ((sorted_sortByDesc _ _).sublist (List.take_sublist 5 _))

/-- Claim C8: on any post, `comments_count` counts exactly the approved
comments of that post, `likes_count` counts all its likes, and `is_liked`
holds for an authenticated actor iff a Like by them on the post exists,
and is false for an anonymous caller. -/
theorem C8_derived_fields (s : Store) (p : BlogPost) (u : User) :
    comments_count s p =
      ((s.comments.filter (fun c => c.postId == p.id)).filter
        (fun c => c.approved)).length ∧
    likes_count s p = (s.likes.filter (fun l => l.postId == p.id)).length ∧
    ((is_liked s (some u) p = true) ↔
      ∃ l ∈ s.likes, l.postId = p.id ∧ l.userId = u.id) ∧
    is_liked s none p = false := by
  refine ⟨?_, rfl, ?_, rfl⟩
  · simp [comments_count, List.filter_filter, Bool.and_comm]
  · simp [is_liked, List.any_eq_true]

/-- A store with no posts at all, for exercising the comment listing. -/
def c3Store : Store :=
  { users := [⟨1, "bob", "b@x.com", "B", "B", false⟩],
    profiles := [⟨1, false⟩],
    categories := [],
    posts := [],
    comments := [],
    likes := [] }

/-- The authenticated caller used in the comment-listing counterexample. -/
def c3User : User := ⟨1, "bob", "b@x.com", "B", "B", false⟩

/-- Claim C3 counterexample: with no post of id 1 in the store, listing the
comments of post 1 answers normally with the empty list instead of failing
with NotFoundError, because `CommentListView.get_queryset` only filters and
never checks that the post exists. -/
theorem C3_counterexample :
    c3Store.posts = [] ∧ commentListGET c3Store c3User 1 = .ok [] :=
  ⟨rfl, rfl⟩

/-- Claim C3 (amended): listing the comments of a post returns exactly the
comments of that post with `approved = true`, ordered by `created_at`
descending; for a post id that does not exist the listing does not fail
with NotFoundError — it never fails at all and simply answers with the
(then empty) filtered list. -/
theorem C3_listApprovedForPost_amended (s : Store) (actor : User) (pid : Nat) :
    commentListGET s actor pid = .ok (listApprovedForPost s pid) ∧
    (listApprovedForPost s pid).Perm
      (s.comments.filter (fun c => c.postId == pid && c.approved)) ∧
    List.Sorted (keyDesc (fun c => c.created_at)) (listApprovedForPost s pid) ∧
    (∀ e : Err, commentListGET s actor pid ≠ .error e) := by
  refine ⟨rfl, perm_sortByDesc _ _, sorted_sortByDesc _ _, fun e h => ?_⟩
  exact Except.noConfusion h

/-- Claim C5: updating or deleting a post is permitted exactly when the
actor is the author of the post or a blog admin, and updating or deleting a
comment is permitted under the same rule keyed on the author of the
comment; every other actor receives PermissionError (an error result, so
the store is unchanged). -/
theorem C5_mutation_permissions (s : Store) (actor : User) (pid cid : Nat)
    (post : BlogPost) (c : Comment) (upd : PostUpdate) (cupd : CommentUpdate)
    (hp : s.posts.find? (fun p => p.id == pid) = some post)
    (hc : s.comments.find? (fun x => x.id == cid) = some c) :
    (post.authorId = actor.id ∨ isBlogAdmin s actor.id = true →
      ∃ s', updatePost s actor pid upd = .ok s') ∧
    (¬(post.authorId = actor.id ∨ isBlogAdmin s actor.id = true) →
      updatePost s actor pid upd = .error .permissionError) ∧
    (post.authorId = actor.id ∨ isBlogAdmin s actor.id = true →
      ∃ s', deletePost s actor pid = .ok s') ∧
    (¬(post.authorId = actor.id ∨ isBlogAdmin s actor.id = true) →
      deletePost s actor pid = .error .permissionError) ∧
    (c.authorId = actor.id ∨ isBlogAdmin s actor.id = true →
      ∃ s', updateComment s actor cid cupd = .ok s') ∧
    (¬(c.authorId = actor.id ∨ isBlogAdmin s actor.id = true) →
      updateComment s actor cid cupd = .error .permissionError) ∧
    (c.authorId = actor.id ∨ isBlogAdmin s actor.id = true →
      ∃ s', deleteComment s actor cid = .ok s') ∧
    (¬(c.authorId = actor.id ∨ isBlogAdmin s actor.id = true) →
      deleteComment s actor cid = .error .permissionError) := by
  have pos : ∀ (aid : Nat), aid = actor.id ∨ isBlogAdmin s actor.id = true →
      (aid == actor.id || isBlogAdmin s actor.id) = true := by
    intro aid h
    rcases h with h | h <;> simp [h]
  have neg : ∀ (aid : Nat), ¬(aid = actor.id ∨ isBlogAdmin s actor.id = true) →
      (aid == actor.id || isBlogAdmin s actor.id) = false := by
    intro aid h
    cases hb : (aid == actor.id || isBlogAdmin s actor.id) with
    | false => rfl
    | true => exact absurd (by simpa using hb) h
  refine ⟨fun h => ?_, fun h => ?_, fun h => ?_, fun h => ?_,
    fun h => ?_, fun h => ?_, fun h => ?_, fun h => ?_⟩ <;>
    first
      | simp [updatePost, hp, pos _ h]
      | simp [updatePost, hp, neg _ h]
      | simp [deletePost, hp, pos _ h]
      | simp [deletePost, hp, neg _ h]
      | simp [updateComment, hc, pos _ h]
      | simp [updateComment, hc, neg _ h]
      | simp [deleteComment, hc, pos _ h]
      | simp [deleteComment, hc, neg _ h]

/-- Store for the C5 witness: bob owns post 10 and comment 20 and is not an
admin, so the author branch of the permission rule is exercised. -/
def c5Store : Store :=
  { users := [⟨1, "bob", "b@x.com", "B", "B", false⟩],
    profiles := [⟨1, false⟩],
    categories := [],
    posts := [⟨10, "t", "c", 1, none, 0, true, 0⟩],
    comments := [⟨20, 10, 1, "hi", 0, false⟩],
    likes := [] }

/-- The actor of the C5 witness. -/
def c5Actor : User := ⟨1, "bob", "b@x.com", "B", "B", false⟩

/-- The post looked up in the C5 witness. -/
def c5Post : BlogPost := ⟨10, "t", "c", 1, none, 0, true, 0⟩

/-- The comment looked up in the C5 witness. -/
def c5Comment : Comment := ⟨20, 10, 1, "hi", 0, false⟩

/-- Witness for C5 at a concrete store. -/
theorem C5_mutation_permissions_witness :
    c5Store.posts.find? (fun p => p.id == 10) = some c5Post ∧
    c5Store.comments.find? (fun x => x.id == 20) = some c5Comment ∧
    ((c5Post.authorId = c5Actor.id ∨ isBlogAdmin c5Store c5Actor.id = true →
      ∃ s', updatePost c5Store c5Actor 10
        { title := "t2", content := "c2", published := true, published_date := 1 }
          = .ok s') ∧
    (¬(c5Post.authorId = c5Actor.id ∨ isBlogAdmin c5Store c5Actor.id = true) →
      updatePost c5Store c5Actor 10
        { title := "t2", content := "c2", published := true, published_date := 1 }
          = .error .permissionError) ∧
    (c5Post.authorId = c5Actor.id ∨ isBlogAdmin c5Store c5Actor.id = true →
      ∃ s', deletePost c5Store c5Actor 10 = .ok s') ∧
    (¬(c5Post.authorId = c5Actor.id ∨ isBlogAdmin c5Store c5Actor.id = true) →
      deletePost c5Store c5Actor 10 = .error .permissionError) ∧
    (c5Comment.authorId = c5Actor.id ∨ isBlogAdmin c5Store c5Actor.id = true →
      ∃ s', updateComment c5Store c5Actor 20 { content := "z", approved := none }
        = .ok s') ∧
    (¬(c5Comment.authorId = c5Actor.id ∨ isBlogAdmin c5Store c5Actor.id = true) →
      updateComment c5Store c5Actor 20 { content := "z", approved := none }
        = .error .permissionError) ∧
    (c5Comment.authorId = c5Actor.id ∨ isBlogAdmin c5Store c5Actor.id = true →
      ∃ s', deleteComment c5Store c5Actor 20 = .ok s') ∧
    (¬(c5Comment.authorId = c5Actor.id ∨ isBlogAdmin c5Store c5Actor.id = true) →
      deleteComment c5Store c5Actor 20 = .error .permissionError)) :=
  ⟨rfl, rfl, C5_mutation_permissions c5Store c5Actor 10 20 c5Post c5Comment
    { title := "t2", content := "c2", published := true, published_date := 1 }
    { content := "z", approved := none } rfl rfl⟩

/-- Claim C10: a created comment always has the requesting actor as author
and the URL-resolved post as its post, no matter what author or post ids
the request body carries; but `approved` is accepted from the body, so a
body with `approved = true` creates an already-approved comment. -/
theorem C10_comment_creation (s : Store) (actor : User) (pid : Nat)
    (inp : CommentInput) (nid now : Nat) (post : BlogPost)
    (hp : s.posts.find? (fun p => p.id == pid) = some post) :
    ∃ nc : Comment,
      createComment s actor pid inp nid now = .ok { s with comments := nc :: s.comments } ∧
      nc.authorId = actor.id ∧
      nc.postId = post.id ∧
      nc.content = inp.content ∧
      nc.approved = (inp.approved).getD false ∧
      (inp.approved = some true → nc.approved = true) := by
  refine ⟨⟨nid, post.id, actor.id, inp.content, now, (inp.approved).getD false⟩,
    ?_, rfl, rfl, rfl, rfl, fun h => by simp [h]⟩
  simp [createComment, hp]

/-- Store for the C10 witness: one post with id 10 by user 1. -/
def c10Store : Store :=
  { users := [⟨1, "ann", "a@x.com", "A", "A", false⟩],
    profiles := [⟨1, true⟩],
    categories := [],
    posts := [⟨10, "t", "c", 1, none, 0, true, 0⟩],
    comments := [],
    likes := [] }

/-- The commenting actor of the C10 witness (id 2, not the author the body
pretends to be). -/
def c10Actor : User := ⟨2, "bob", "b@x.com", "B", "B", false⟩

/-- The post of the C10 witness. -/
def c10Post : BlogPost := ⟨10, "t", "c", 1, none, 0, true, 0⟩

/-- A request body that claims a different author and post and asks for
`approved = true`. -/
def c10Input : CommentInput := ⟨"first!", some true, some 999, some 777⟩

/-- Witness for C10: despite body author 999 and body post 777, the comment
is created for actor 2 on post 10, and it is already approved. -/
theorem C10_comment_creation_witness :
    c10Store.posts.find? (fun p => p.id == 10) = some c10Post ∧
    (∃ nc : Comment,
      createComment c10Store c10Actor 10 c10Input 30 5
        = .ok { c10Store with comments := nc :: c10Store.comments } ∧
      nc.authorId = c10Actor.id ∧
      nc.postId = c10Post.id ∧
      nc.content = c10Input.content ∧
      nc.approved = (c10Input.approved).getD false ∧
      (c10Input.approved = some true → nc.approved = true)) :=
  ⟨rfl, C10_comment_creation c10Store c10Actor 10 c10Input 30 5 c10Post rfl⟩

/-- A platform-staff actor whose blog profile flag is false. -/
def c1Staff : User := ⟨2, "staffy", "s@x.com", "S", "S", true⟩

/-- Store for the C1 counterexample: user 2 is staff, not blog admin. -/
def c1Store : Store :=
  { users := [c1Staff],
    profiles := [⟨2, false⟩],
    categories := [],
    posts := [],
    comments := [],
    likes := [] }

/-- Claim C1 counterexample: an actor whose profile has
`is_blog_admin = false` but whose platform `is_staff` flag is true creates
a category successfully, while the claim demands a PermissionError for
every such actor — category creation is gated on the DRF IsAdminUser check
(is_staff), not on the blog-admin profile flag. -/
theorem C1_counterexample :
    isBlogAdmin c1Store c1Staff.id = false ∧
    createCategory c1Store c1Staff 7 "Tech"
      = .ok { c1Store with categories := [⟨7, "Tech"⟩] } :=
  ⟨rfl, rfl⟩

/-- The corrected gate property of claim C1: post creation, comment
approval and the admin listing are gated on the blog-admin profile flag,
while category creation and mutation are gated on the platform staff
flag. -/
def adminGateProp (s : Store) (actor : User) (pid cid ccid ncid : Nat)
    (inp : PostInput) (now : Nat) (nm : String) : Prop :=
  (isBlogAdmin s actor.id = true →
    ∃ s', createPost s actor pid inp now = .ok s') ∧
  (isBlogAdmin s actor.id = false →
    createPost s actor pid inp now = .error .permissionError) ∧
  (isBlogAdmin s actor.id = true →
    ∃ s', approveComment s actor cid = .ok s') ∧
  (isBlogAdmin s actor.id = false →
    approveComment s actor cid = .error .permissionError) ∧
  (isBlogAdmin s actor.id = true →
    ∃ l, listOwnForAdmin s actor = .ok l) ∧
  (isBlogAdmin s actor.id = false →
    listOwnForAdmin s actor = .error .permissionError) ∧
  (actor.is_staff = true →
    ∃ s', createCategory s actor ncid nm = .ok s') ∧
  (actor.is_staff = false →
    createCategory s actor ncid nm = .error .permissionError) ∧
  (actor.is_staff = true →
    ∃ s', updateCategory s actor ccid nm = .ok s') ∧
  (actor.is_staff = false →
    updateCategory s actor ccid nm = .error .permissionError) ∧
  (actor.is_staff = true →
    ∃ s', deleteCategory s actor ccid = .ok s') ∧
  (actor.is_staff = false →
    deleteCategory s actor ccid = .error .permissionError)

/-- Claim C1 (amended): creating a post, approving a comment, and listing
posts via listOwnForAdmin succeed exactly for actors whose profile has
`is_blog_admin = true` and yield PermissionError when it is false; category
creation and mutation, however, are gated on the platform staff flag
(IsAdminUser), succeeding iff `actor.is_staff`, regardless of the
blog-admin flag. -/
theorem C1_admin_gates (s : Store) (actor : User) (pid cid ccid ncid : Nat)
    (inp : PostInput) (now : Nat) (nm : String) (c : Comment) (cat : BlogCategory)
    (hc : s.comments.find? (fun x => x.id == cid) = some c)
    (hcat : s.categories.find? (fun x => x.id == ccid) = some cat) :
    adminGateProp s actor pid cid ccid ncid inp now nm := by
  unfold adminGateProp
  refine ⟨fun h => ?_, fun h => ?_, fun h => ?_, fun h => ?_, fun h => ?_,
    fun h => ?_, fun h => ?_, fun h => ?_, fun h => ?_, fun h => ?_,
    fun h => ?_, fun h => ?_⟩ <;>
    simp [createPost, approveComment, listOwnForAdmin, createCategory,
      updateCategory, deleteCategory, hc, hcat, h]

/-- Actor for the C1 witness: both blog admin and staff. -/
def c1wActor : User := ⟨1, "root", "r@x.com", "R", "R", true⟩

/-- Store for the C1 witness. -/
def c1wStore : Store :=
  { users := [c1wActor],
    profiles := [⟨1, true⟩],
    categories := [⟨3, "Old"⟩],
    posts := [],
    comments := [⟨4, 9, 1, "hey", 0, false⟩],
    likes := [] }

/-- Witness for the amended C1 at a concrete store. -/
theorem C1_admin_gates_witness :
    c1wStore.comments.find? (fun x => x.id == 4) = some ⟨4, 9, 1, "hey", 0, false⟩ ∧
    c1wStore.categories.find? (fun x => x.id == 3) = some ⟨3, "Old"⟩ ∧
    adminGateProp c1wStore c1wActor 11 4 3 12 ⟨"t", "c", none, true, 0⟩ 6 "Tech" :=
  ⟨rfl, rfl, C1_admin_gates c1wStore c1wActor 11 4 3 12 ⟨"t", "c", none, true, 0⟩ 6
    "Tech" ⟨4, 9, 1, "hey", 0, false⟩ ⟨3, "Old"⟩ rfl rfl⟩

/-- The liking user of the C2 examples. -/
def c2User : User := ⟨1, "bob", "b@x.com", "B", "B", false⟩

/-- Store for the C2 examples: user 1 already likes post 10. -/
def c2Store : Store :=
  { users := [c2User],
    profiles := [⟨1, false⟩],
    categories := [],
    posts := [⟨10, "t", "c", 1, none, 0, true, 0⟩],
    comments := [],
    likes := [⟨5, 10, 1⟩] }

/-- Claim C2 counterexample: user 1 already likes post 10, and a second
like attempt fails with the DRF ValidationError (HTTP 400) raised by
`LikeCreateView.perform_create` — not with a ConflictError. -/
theorem C2_counterexample :
    c2Store.likes.any (fun l => l.postId == 10 && l.userId == c2User.id) = true ∧
    likeCreate c2Store c2User 10 99 = .error .validationError ∧
    Err.validationError ≠ Err.conflictError :=
  ⟨rfl, rfl, by decide⟩

/-- The corrected like-lifecycle property of claim C2: a duplicate like
fails with ValidationError; a fresh like inserts exactly one row; an
unlike with no existing like fails with NotFoundError; an unlike with a
(unique) existing like removes exactly that row, after which a second
unlike fails with NotFoundError. -/
def likeLifecycleProp (s : Store) (actor : User) (pid nid : Nat) (post : BlogPost) :
    Prop :=
  ((∃ l ∈ s.likes, l.postId = post.id ∧ l.userId = actor.id) →
    likeCreate s actor pid nid = .error .validationError) ∧
  ((∀ l ∈ s.likes, ¬(l.postId = post.id ∧ l.userId = actor.id)) →
    likeCreate s actor pid nid =
      .ok { s with likes := ⟨nid, post.id, actor.id⟩ :: s.likes }) ∧
  ((∀ l ∈ s.likes, ¬(l.postId = post.id ∧ l.userId = actor.id)) →
    likeDelete s actor pid = .error .notFoundError) ∧
  (∀ x ∈ s.likes, x.postId = post.id → x.userId = actor.id →
    (∀ y ∈ s.likes, y.postId = post.id → y.userId = actor.id → y = x) →
    (∀ y ∈ s.likes, y.id = x.id → y = x) →
    ∃ s', likeDelete s actor pid = .ok s' ∧
      x ∉ s'.likes ∧
      (∀ z ∈ s.likes, z ≠ x → z ∈ s'.likes) ∧
      (∀ z ∈ s'.likes, z ∈ s.likes) ∧
      likeDelete s' actor pid = .error .notFoundError)

/-- Claim C2 (amended): like/unlike lifecycle with the duplicate-like
failure being ValidationError (HTTP 400) rather than ConflictError; the
rest of the claim — single insertion, NotFoundError on unlike without a
like, and NotFoundError on a second consecutive unlike — holds as
stated. -/
theorem C2_like_unlike (s : Store) (actor : User) (pid nid : Nat) (post : BlogPost)
    (hp : s.posts.find? (fun p => p.id == pid) = some post) :
    likeLifecycleProp s actor pid nid post := by
  unfold likeLifecycleProp
  refine ⟨?_, ?_, ?_, ?_⟩
  · rintro ⟨l, hl, hlp, hlu⟩
    have hany : s.likes.any (fun l => l.postId == post.id && l.userId == actor.id)
        = true := by
      simp only [List.any_eq_true, Bool.and_eq_true, beq_iff_eq]
      exact ⟨l, hl, hlp, hlu⟩
    simp [likeCreate, hp, hany]
  · intro h
    have hany : s.likes.any (fun l => l.postId == post.id && l.userId == actor.id)
        = false := by
      cases hb : s.likes.any (fun l => l.postId == post.id && l.userId == actor.id) with
      | false => rfl
      | true =>
        simp only [List.any_eq_true, Bool.and_eq_true, beq_iff_eq] at hb
        obtain ⟨l, hl, hlp, hlu⟩ := hb
        exact absurd ⟨hlp, hlu⟩ (h l hl)
    simp [likeCreate, hp, hany]
  · intro h
    have hfind : s.likes.find? (fun l => l.postId == post.id && l.userId == actor.id)
        = none := by
      rw [List.find?_eq_none]
      intro l hl hpred
      simp only [Bool.and_eq_true, beq_iff_eq] at hpred
      exact h l hl hpred
    simp [likeDelete, hp, hfind]
  · intro x hx hxp hxu huniqPair huniqId
    obtain ⟨w, hw⟩ : ∃ w, s.likes.find?
        (fun l => l.postId == post.id && l.userId == actor.id) = some w := by
      cases hfw : s.likes.find? (fun l => l.postId == post.id && l.userId == actor.id) with
      | some w => exact ⟨w, rfl⟩
      | none =>
        rw [List.find?_eq_none] at hfw
        exact absurd (by simp [hxp, hxu]) (hfw x hx)
    have hwmem := List.mem_of_find?_eq_some hw
    have hwpred := List.find?_some hw
    simp only [Bool.and_eq_true, beq_iff_eq] at hwpred
    have hwx : w = x := huniqPair w hwmem hwpred.1 hwpred.2
    subst hwx
    refine ⟨{ s with likes := s.likes.filter (fun z => !(z.id == w.id)) },
      ?_, ?_, ?_, ?_, ?_⟩
    · simp [likeDelete, hp, hw]
    · simp [List.mem_filter]
    · intro z hz hzx
      have hzid : ¬(z.id = w.id) := fun he => hzx (huniqId z hz he)
      simp [List.mem_filter, hz, hzid]
    · intro z hz
      exact (List.mem_filter.mp hz).1
    · have hnone : (s.likes.filter (fun z => !(z.id == w.id))).find?
          (fun l => l.postId == post.id && l.userId == actor.id) = none := by
        rw [List.find?_eq_none]
        intro y hy hpred
        have hymem := (List.mem_filter.mp hy).1
        have hyid := (List.mem_filter.mp hy).2
        simp only [Bool.and_eq_true, beq_iff_eq] at hpred
        have hyw : y = w := huniqPair y hymem hpred.1 hpred.2
        subst hyw
        simp at hyid
      simp [likeDelete, hp, hnone]

/-- The post of the C2 witness. -/
def c2wPost : BlogPost := ⟨10, "t", "c", 1, none, 0, true, 0⟩

/-- Witness for the amended C2 at the concrete store where the like
exists. -/
theorem C2_like_unlike_witness :
    c2Store.posts.find? (fun p => p.id == 10) = some c2wPost ∧
    likeLifecycleProp c2Store c2User 10 99 c2wPost :=
  ⟨rfl, C2_like_unlike c2Store c2User 10 99 c2wPost rfl⟩

/-- Store for the C4 counterexample: username alice is taken. -/
def c4Store : Store :=
  { users := [⟨1, "alice", "a@x.com", "A", "A", false⟩],
    profiles := [⟨1, false⟩],
    categories := [],
    posts := [],
    comments := [],
    likes := [] }

/-- A registration request reusing the taken username with all required
fields present. -/
def c4Input : RegisterInput :=
  ⟨"alice", "pw", some "new@x.com", some "N", some "N", none⟩

/-- Claim C4 counterexample: registering the already-taken username alice
with every required field present answers the serializer 400
ValidationError path of `UserRegisterView.post`, not a distinct
ConflictError. -/
theorem C4_counterexample :
    c4Store.users.any (fun u => u.username == "alice") = true ∧
    register c4Store c4Input 2 = .error .validationError ∧
    Err.validationError ≠ Err.conflictError :=
  ⟨rfl, rfl, by decide⟩

/-- The corrected registration property of claim C4: a taken username and
a missing required field both fail with ValidationError (HTTP 400), and a
valid registration creates the user plus exactly one paired profile whose
blog-admin flag defaults to false unless explicitly requested. -/
def registerProp (s : Store) (inp : RegisterInput) (nid : Nat) : Prop :=
  ((∃ u ∈ s.users, u.username = inp.username) →
    register s inp nid = .error .validationError) ∧
  ((inp.email = none ∨ inp.first_name = none ∨ inp.last_name = none) →
    register s inp nid = .error .validationError) ∧
  (∀ e f l, (∀ u ∈ s.users, u.username ≠ inp.username) →
    inp.email = some e → inp.first_name = some f → inp.last_name = some l →
    ∃ s' u, register s inp nid = .ok (s', u) ∧
      u = ⟨nid, inp.username, e, f, l, false⟩ ∧
      s'.users = u :: s.users ∧
      s'.profiles = ⟨nid, (inp.is_blog_admin).getD false⟩ :: s.profiles ∧
      s'.profiles.countP (fun p => p.userId == nid) = 1 ∧
      (inp.is_blog_admin = none → isBlogAdmin s' nid = false) ∧
      (∀ b, inp.is_blog_admin = some b → isBlogAdmin s' nid = b))

/-- Claim C4 (amended): register fails with ValidationError both when the
username is taken (the code has no distinct ConflictError path — the
serializer answers HTTP 400) and when email, first_name or last_name is
absent; otherwise it creates the User together with exactly one paired
UserProfile whose is_blog_admin defaults to false unless explicitly
requested true. -/
theorem C4_register (s : Store) (inp : RegisterInput) (nid : Nat)
    (hfresh : ∀ p ∈ s.profiles, p.userId ≠ nid) :
    registerProp s inp nid := by
  unfold registerProp
  refine ⟨?_, ?_, ?_⟩
  · rintro ⟨u, hu, hname⟩
    have hany : s.users.any (fun u => u.username == inp.username) = true := by
      simp only [List.any_eq_true, beq_iff_eq]
      exact ⟨u, hu, hname⟩
    simp [register, hany]
  · intro h
    cases hb : s.users.any (fun u => u.username == inp.username) with
    | true => simp [register, hb]
    | false =>
      rcases h with h | h | h <;>
        cases he : inp.email <;> cases hf : inp.first_name <;>
          cases hl : inp.last_name <;> simp_all [register]
  · intro e f l hnone he hf hl
    have hany : s.users.any (fun u => u.username == inp.username) = false := by
      cases hb : s.users.any (fun u => u.username == inp.username) with
      | false => rfl
      | true =>
        simp only [List.any_eq_true, beq_iff_eq] at hb
        obtain ⟨u, hu, hname⟩ := hb
        exact absurd hname (hnone u hu)
    have h0 : s.profiles.countP (fun p => p.userId == nid) = 0 :=
      List.countP_eq_zero.mpr (fun p hp => by simpa using hfresh p hp)
    refine ⟨{ s with
        users := ⟨nid, inp.username, e, f, l, false⟩ :: s.users,
        profiles := ⟨nid, (inp.is_blog_admin).getD false⟩ :: s.profiles },
      ⟨nid, inp.username, e, f, l, false⟩, ?_, rfl, rfl, rfl, ?_, ?_, ?_⟩
    · simp [register, hany, he, hf, hl]
    · simp [List.countP_cons, h0]
    · intro hb
      simp [isBlogAdmin, hb]
    · intro b hb
      simp [isBlogAdmin, hb]

/-- Empty store for the C4 witness. -/
def c4wStore : Store := ⟨[], [], [], [], [], []⟩

/-- A valid registration that explicitly requests the blog-admin flag. -/
def c4wInput : RegisterInput :=
  ⟨"carol", "pw", some "c@x.com", some "C", some "C", some true⟩

/-- Witness for the amended C4 on the empty store. -/
theorem C4_register_witness :
    (∀ p ∈ c4wStore.profiles, p.userId ≠ 1) ∧ registerProp c4wStore c4wInput 1 :=
  ⟨by simp [c4wStore], C4_register c4wStore c4wInput 1 (by simp [c4wStore])⟩

/-- Claim C9: approving a comment sets its approved flag and is
idempotent. For a blog admin and a not-yet-approved comment whose id is
unique in the store, the first approval succeeds and raises the
comments_count of the post of the comment by exactly one, and approving
again succeeds returning the very same store (a no-op success), so the
count stays at the increased value. -/
theorem C9_approve_idempotent (s : Store) (actor : User) (p : BlogPost)
    (l1 l2 : List Comment) (c : Comment)
    (hadm : isBlogAdmin s actor.id = true)
    (hsplit : s.comments = l1 ++ c :: l2)
    (h1 : ∀ x ∈ l1, x.id ≠ c.id) (h2 : ∀ x ∈ l2, x.id ≠ c.id)
    (hpc : c.postId = p.id) (hun : c.approved = false) :
    ∃ s', approveComment s actor c.id = .ok s' ∧
      s'.comments = l1 ++ { c with approved := true } :: l2 ∧
      comments_count s' p = comments_count s p + 1 ∧
      approveComment s' actor c.id = .ok s' := by
  have hl1 : l1.map (fun x => if x.id = c.id then { x with approved := true } else x)
      = l1 := by
    refine map_eq_self_of _ l1 (fun x hx => ?_)
    simp [h1 x hx]
  have hl2 : l2.map (fun x => if x.id = c.id then { x with approved := true } else x)
      = l2 := by
    refine map_eq_self_of _ l2 (fun x hx => ?_)
    simp [h2 x hx]
  have hfind : s.comments.find? (fun x => x.id == c.id) = some c := by
    rw [hsplit]
    exact find?_append_cons _ l1 l2 c (fun x hx => by simpa using h1 x hx) (by simp)
  have hmap : s.comments.map
      (fun x => if x.id = c.id then { x with approved := true } else x)
      = l1 ++ { c with approved := true } :: l2 := by
    rw [hsplit]
    simp [hl1, hl2]
  refine ⟨{ s with comments := l1 ++ { c with approved := true } :: l2 },
    ?_, rfl, ?_, ?_⟩
  · simp [approveComment, hadm, hfind, hmap]
  · simp only [comments_count, hsplit, List.filter_append, List.filter_cons,
      List.length_append, hpc, hun, Bool.and_false, Bool.and_true, beq_self_eq_true,
      Bool.and_eq_true, beq_iff_eq]
    simp
    omega
  · have hadm' : isBlogAdmin
        { s with comments := l1 ++ { c with approved := true } :: l2 } actor.id
        = true := hadm
    have hfind' : (l1 ++ { c with approved := true } :: l2).find?
        (fun x => x.id == c.id) = some { c with approved := true } :=
      find?_append_cons _ l1 l2 _ (fun x hx => by simpa using h1 x hx) (by simp)
    have hmap' : (l1 ++ { c with approved := true } :: l2).map
        (fun x => if x.id = c.id then { x with approved := true } else x)
        = l1 ++ { c with approved := true } :: l2 := by
      simp [hl1, hl2]
    simp [approveComment, hadm', hfind', hmap']

/-- Store for the C9 witness: admin ann, post 10, unapproved comment 20. -/
def c9Store : Store :=
  { users := [⟨1, "ann", "a@x.com", "A", "A", false⟩],
    profiles := [⟨1, true⟩],
    categories := [],
    posts := [⟨10, "t", "c", 1, none, 0, true, 0⟩],
    comments := [⟨20, 10, 1, "hi", 3, false⟩],
    likes := [] }

/-- The admin actor of the C9 witness. -/
def c9Actor : User := ⟨1, "ann", "a@x.com", "A", "A", false⟩

/-- The post of the C9 witness. -/
def c9Post : BlogPost := ⟨10, "t", "c", 1, none, 0, true, 0⟩

/-- The comment of the C9 witness. -/
def c9Comment : Comment := ⟨20, 10, 1, "hi", 3, false⟩

/-- Witness for C9 at the concrete store. -/
theorem C9_approve_idempotent_witness :
    isBlogAdmin c9Store c9Actor.id = true ∧
    c9Store.comments = [] ++ c9Comment :: [] ∧
    c9Comment.postId = c9Post.id ∧
    c9Comment.approved = false ∧
    (∃ s', approveComment c9Store c9Actor c9Comment.id = .ok s' ∧
      s'.comments = [] ++ { c9Comment with approved := true } :: [] ∧
      comments_count s' c9Post = comments_count c9Store c9Post + 1 ∧
      approveComment s' c9Actor c9Comment.id = .ok s') :=
  ⟨rfl, rfl, rfl, rfl,
    C9_approve_idempotent c9Store c9Actor c9Post [] [] c9Comment rfl rfl
      (by simp) (by simp) rfl rfl⟩

end Blogd
